import Mathlib

/-
Verification of scripts/bench_neovide_ipc.py: a JSON-RPC benchmark client
speaking newline-framed JSON over a unix stream socket.

Shallow embedding notes.
Python values that can flow through this program (outputs of json.loads and
literals of the script) are modelled by the inductive type Py; JSON numbers
appearing in the claims are integers, so only integers are modelled.
Python dicts are association lists with unique keys; dict.get with its None
default is dictGet.  Python truthiness is the Bool function truthy, and
the expression a or b is pyOr a b (first truthy operand, else the last).
Exceptions are modelled with Except PyErr: send_rpc raises ConnectionError
from connect, socket.timeout from sendall (not caught: only the recv call
sits inside a try), and resp.get on a non-dict raises AttributeError.
The socket is abstracted by SockEnv: whether connect fails, whether the
2-second sendall deadline expires, the sequence of recv outcomes, and the
behaviour of bytes.decode + json.loads on the candidate bytes (decodeFn,
where Option.none means the library call raised).  Bytes are naturals; the
line terminator byte is 10.
-/

/-- A Python/JSON value as produced by json.loads or written in the script. -/
inductive Py where
  | none
  | bool (b : Bool)
  | int (n : Int)
  | str (s : String)
  | list (xs : List Py)
  | dict (entries : List (String × Py))

/-- Python truthiness: bool(v) for the values of Py. -/
def truthy : Py → Bool
  | .none => false
  | .bool b => b
  | .int n => if n = 0 then false else true
  | .str s => if s = "" then false else true
  | .list [] => false
  | .list (_ :: _) => true
  | .dict [] => false
  | .dict (_ :: _) => true

/-- The Python expression a or b: a if truthy, else b. -/
def pyOr (a b : Py) : Py := if truthy a then a else b

/-- Python dict.get(key) with its default of None. -/
def dictGet : List (String × Py) → String → Py
  | [], _ => .none
  | (k, v) :: rest, key => if k = key then v else dictGet rest key

/-- The chain d.get("window_id") or d.get("id") or d.get("windowId") or ""
from lines 49, 57 and 58 of the script. -/
def getOr3 (es : List (String × Py)) : Py :=
  pyOr (dictGet es "window_id")
    (pyOr (dictGet es "id") (pyOr (dictGet es "windowId") (.str "")))

/-- Exceptions this program can raise. -/
inductive PyErr where
  | connError
  | timeoutErr
  | attrError

/-- Body of first_window_id after res = resp.get("result") succeeded
(lines 44 to 59 of the script). -/
def fwid_body : Py → Py
  | .list (first :: _) =>
    (match first with
     | .str s => .str s
     | .dict es => getOr3 es
     | _ => .str "")
  | .dict es =>
    (match dictGet es "windows" with
     | .list (w :: _) =>
       (match w with
        | .str s => .str s
        | .dict wes => getOr3 wes
        | _ => getOr3 es)
     | _ => getOr3 es)
  | _ => .str ""

/-- first_window_id (lines 42 to 59).  resp.get("result") raises
AttributeError when resp is not a dict, which the function does not catch;
every later access is isinstance-guarded and cannot raise. -/
def first_window_id (resp : Py) : Except PyErr Py :=
  match resp with
  | .dict es => .ok (fwid_body (dictGet es "result"))
  | _ => .error .attrError

/-- Is the value a Python str. -/
def isStr : Py → Bool
  | .str _ => true
  | _ => false

/-- Is the value a Python dict. -/
def isDict : Py → Bool
  | .dict _ => true
  | _ => false

/-- Did the Except-valued call return normally. -/
def isOkB : Except PyErr Py → Bool
  | .ok _ => true
  | .error _ => false

/-- Is the exception a ConnectionError. -/
def errIsConn : PyErr → Bool
  | .connError => true
  | _ => false

/-- One outcome of s.recv(65536) under the 2-second deadline: either the
call raised socket.timeout, or it returned a chunk of bytes (the empty
chunk meaning the peer closed the connection). -/
inductive RecvEvent where
  | tout
  | chunk (data : List Nat)

/-- The read loop of send_rpc (lines 22 to 33): accumulate chunks into buf
until a timeout, a zero-length read, or a terminator byte 10 in buf, in
which last case keep the bytes before the first terminator. -/
def recvLoop : List RecvEvent → List Nat → List Nat
  | [], buf => buf
  | RecvEvent.tout :: _, buf => buf
  | RecvEvent.chunk [] :: _, buf => buf
  | RecvEvent.chunk (b :: bs) :: rest, buf =>
    let buf2 := buf ++ (b :: bs)
    if 10 ∈ buf2 then buf2.takeWhile (fun x => x != 10)
    else recvLoop rest buf2

/-- Abstraction of one socket exchange as seen by send_rpc: whether connect
raises, whether the framed write times out, the recv outcomes, and the
behaviour of buf.decode("utf-8") followed by json.loads on the candidate
bytes (Option.none meaning that pair of calls raised). -/
structure SockEnv where
  connectFails : Bool
  sendTimesOut : Bool
  recvEvents : List RecvEvent
  decodeFn : List Nat → Option Py

/-- send_rpc (lines 16 to 39).  connect failure raises ConnectionError; a
sendall that cannot finish before the deadline raises socket.timeout (the
try block around recv does not cover sendall); then the read loop runs; an
empty candidate yields the empty dict; a decode failure is swallowed and
also yields the empty dict. -/
def send_rpc (env : SockEnv) : Except PyErr Py :=
  if env.connectFails then .error .connError
  else if env.sendTimesOut then .error .timeoutErr
  else
    let buf := recvLoop env.recvEvents []
    if buf = [] then .ok (.dict [])
    else
      match env.decodeFn buf with
      | some v => .ok v
      | Option.none => .ok (.dict [])

/-- The ListWindows request of line 77. -/
def listPayload : Py :=
  .dict [("jsonrpc", .str "2.0"), ("id", .int 1), ("method", .str "ListWindows")]

/-- The CreateWindow request of lines 82 to 90 with PATH_ARG = ".". -/
def createPayload : Py :=
  .dict [("jsonrpc", .str "2.0"), ("id", .int 2), ("method", .str "CreateWindow"),
    ("params", .dict [("nvim_args", .list [.str "."])])]

/-- The ActivateWindow request of lines 96 to 104. -/
def activatePayload (target : Py) : Py :=
  .dict [("jsonrpc", .str "2.0"), ("id", .int 3), ("method", .str "ActivateWindow"),
    ("params", .dict [("window_id", target)])]

/-- An observable act of the driver: a timed call printed under a label, or
the skip notice of line 106. -/
inductive DriverAct where
  | call (label : String) (payload : Py)
  | skipReport

/-- The activation step of one iteration (lines 93 to 106): with activation
enabled, target_id = list_id or create_id; a truthy target is activated
under label ActivateWindow, otherwise the skip is reported. -/
def activateStep (doActivate : Bool) (listId createId : Py) : List DriverAct :=
  if doActivate then
    let target := pyOr listId createId
    if truthy target then [DriverAct.call "ActivateWindow" (activatePayload target)]
    else [DriverAct.skipReport]
  else []

/-- The CreateWindow step of one iteration (lines 80 to 91): when enabled,
run the exchange and extract an identifier; exceptions propagate (neither
bench nor main catches them); when disabled, create_id stays the empty
string. -/
def createStep (doCreate : Bool) (e2 : SockEnv) : Except PyErr (Py × List DriverAct) :=
  if doCreate then
    match send_rpc e2 with
    | .error e => .error e
    | .ok createResp =>
      match first_window_id createResp with
      | .error e => .error e
      | .ok createId => .ok (createId, [DriverAct.call "CreateWindow" createPayload])
  else .ok (.str "", [])

/-- One iteration of the main loop (lines 74 to 108) over the socket
environments of its up to three exchanges.  Any exception raised by an
exchange or by identifier extraction propagates: main has no handler and
line 112 catches only KeyboardInterrupt. -/
def runIteration (doCreate doActivate : Bool) (e1 e2 e3 : SockEnv) :
    Except PyErr (List DriverAct) :=
  match send_rpc e1 with
  | .error e => .error e
  | .ok listResp =>
    match first_window_id listResp with
    | .error e => .error e
    | .ok listId =>
      match createStep doCreate e2 with
      | .error e => .error e
      | .ok (createId, createActs) =>
        let acts := DriverAct.call "ListWindows" listPayload ::
          createActs ++ activateStep doActivate listId createId
        if doActivate && truthy (pyOr listId createId) then
          match send_rpc e3 with
          | .error e => .error e
          | .ok _ => .ok acts
        else .ok acts

/-- An exchange whose framed write times out (connect succeeded). -/
def tEnv : SockEnv := ⟨false, true, [], fun _ => Option.none⟩

/-- An exchange in which the peer replies with the five bytes of the text
made of bracket, digit one, closing bracket and the line terminator; its
decodeFn models json.loads returning the JSON array holding the number 1
on those bytes. -/
def nonObjEnv : SockEnv :=
  ⟨false, false, [RecvEvent.chunk [91, 49, 93, 10]],
    fun bs => if bs = [91, 49, 93] then some (.list [.int 1]) else Option.none⟩

/-- A response whose result is a one-element list whose mapping carries the
key window_id with an empty-string value and the key id with value X. -/
def c3resp : Py :=
  .dict [("result", .list [.dict [("window_id", .str ""), ("id", .str "X")]])]

/-- An exchange whose connect raises ConnectionError. -/
def cEnv : SockEnv := ⟨true, false, [], fun _ => Option.none⟩

/-- Claim C1 (code bug, shown at the failing input): when the peer replies
with valid non-object JSON, send_rpc returns normally with the non-dict
value (contradicting its declared dict return type) and first_window_id
applied to that value raises AttributeError, so the benchmark loop does
crash, against the claim that neither call ever raises. -/
theorem send_rpc_nonobject_payload_crashes_extractor :
    send_rpc nonObjEnv = .ok (.list [.int 1]) ∧
    first_window_id (.list [.int 1]) = .error .attrError := ⟨rfl, rfl⟩

/-- Claim C2 counterexample: a framed write that cannot complete before the
deadline makes send_rpc raise socket.timeout rather than return the empty
Response the claim promises. -/
theorem write_timeout_returns_error_cex :
    send_rpc tEnv = .error .timeoutErr ∧ isOkB (send_rpc tEnv) = false := ⟨rfl, rfl⟩

/-- Claim C2 amended: a write timeout is not treated like a read timeout;
send_rpc propagates the timeout exception whenever the write cannot
complete before the deadline, for any connected exchange. -/
theorem write_timeout_propagates :
    ∀ env : SockEnv, env.connectFails = false → env.sendTimesOut = true →
    send_rpc env = .error .timeoutErr := by
  intro env h1 h2
  simp [send_rpc, h1, h2]

/-- Witness for the amended C2 at a concrete exchange. -/
theorem write_timeout_propagates_witness :
    send_rpc ⟨false, true, [RecvEvent.tout], fun _ => Option.none⟩ = .error .timeoutErr :=
  write_timeout_propagates ⟨false, true, [RecvEvent.tout], fun _ => Option.none⟩ rfl rfl

/-- Claim C3 counterexample: in the response c3resp the key window_id is
present (holding the empty string), yet first_window_id returns the value
of the later key id, so the first PRESENT key does not win. -/
theorem key_priority_skips_falsy_cex :
    first_window_id c3resp = .ok (.str "X") ∧
    dictGet [("window_id", Py.str ""), ("id", Py.str "X")] "window_id" = .str "" ∧
    (("X" : String) == "") = false := ⟨rfl, rfl, rfl⟩

/-- Claim C3 amended: when the result field is a non-empty sequence whose
first element is a mapping, first_window_id returns the first TRUTHY value
among the keys window_id, id, windowId in that priority order (a key that
is present with a falsy value, such as the empty string, is skipped), and
the empty string when no key holds a truthy value. -/
theorem first_window_id_first_truthy_key :
    ∀ (es : List (String × Py)) (rest : List Py) (respEs : List (String × Py)),
    dictGet respEs "result" = .list (.dict es :: rest) →
    first_window_id (.dict respEs) = .ok
      (if truthy (dictGet es "window_id") then dictGet es "window_id"
       else if truthy (dictGet es "id") then dictGet es "id"
       else if truthy (dictGet es "windowId") then dictGet es "windowId"
       else .str "") := by
  intro es rest respEs h
  simp only [first_window_id]
  rw [h]
  simp [fwid_body, getOr3, pyOr]

/-- Witness for the amended C3 at a concrete response. -/
theorem first_window_id_first_truthy_key_witness :
    first_window_id
      (.dict [("result", .list [.dict [("window_id", .str ""), ("id", .str "Y")]])]) =
      .ok (.str "Y") := by
  have h := first_window_id_first_truthy_key
    [("window_id", .str ""), ("id", .str "Y")] []
    [("result", .list [.dict [("window_id", .str ""), ("id", .str "Y")]])] rfl
  exact h.trans (by rfl)

/-- Claim C4: the three degenerate mapping shapes give the empty identifier
without raising, and an exchange whose received bytes cannot be decoded
returns the empty Response without raising. -/
theorem empty_shapes_and_decode_failure_yield_empty :
    first_window_id (.dict []) = .ok (.str "") ∧
    first_window_id (.dict [("result", .list [])]) = .ok (.str "") ∧
    first_window_id (.dict [("result", .dict [])]) = .ok (.str "") ∧
    (∀ env : SockEnv, env.connectFails = false → env.sendTimesOut = false →
      (∀ bs, env.decodeFn bs = Option.none) → send_rpc env = .ok (.dict [])) := by
  refine ⟨rfl, rfl, rfl, ?_⟩
  intro env h1 h2 h3
  simp [send_rpc, h1, h2, h3]

/-- Witness for C4: a peer sending one undecodable byte before the
terminator still yields the empty Response. -/
theorem empty_shapes_and_decode_failure_yield_empty_witness :
    send_rpc ⟨false, false, [RecvEvent.chunk [120, 10]], fun _ => Option.none⟩ =
      .ok (.dict []) :=
  empty_shapes_and_decode_failure_yield_empty.2.2.2
    ⟨false, false, [RecvEvent.chunk [120, 10]], fun _ => Option.none⟩ rfl rfl
    (fun _ => rfl)

/-- Claim C5 (code bug, shown at the failing inputs): first_window_id
returns the non-string 42 on a mapping response carrying an integer id
(contradicting its declared str return type), and raises AttributeError on
a non-mapping response, against the claim that it never fails and always
returns a string. -/
theorem first_window_id_nonstring_result :
    first_window_id (.dict [("result", .list [.dict [("id", .int 42)]])]) =
      .ok (.int 42) ∧
    isStr (.int 42) = false ∧
    first_window_id (.list []) = .error .attrError := ⟨rfl, rfl, rfl⟩

/-- Claim C6: the read loop stops with the accumulated bytes on a timeout
or a zero-length read, stops with the bytes before the first terminator
when a terminator byte arrives, keeps accumulating otherwise, and every
connected exchange with a completed write returns normally into decoding. -/
theorem recv_loop_three_outcomes :
    ∀ (rest : List RecvEvent) (buf : List Nat),
    (recvLoop (RecvEvent.tout :: rest) buf = buf) ∧
    (recvLoop (RecvEvent.chunk [] :: rest) buf = buf) ∧
    (∀ b bs, 10 ∈ buf ++ (b :: bs) →
      recvLoop (RecvEvent.chunk (b :: bs) :: rest) buf =
        (buf ++ (b :: bs)).takeWhile (fun x => x != 10)) ∧
    (∀ b bs, ¬ 10 ∈ buf ++ (b :: bs) →
      recvLoop (RecvEvent.chunk (b :: bs) :: rest) buf =
        recvLoop rest (buf ++ (b :: bs))) ∧
    (∀ env : SockEnv, env.connectFails = false → env.sendTimesOut = false →
      isOkB (send_rpc env) = true) := by
  intro rest buf
  refine ⟨rfl, rfl, ?_, ?_, ?_⟩
  · intro b bs h
    simp [recvLoop, h]
  · intro b bs h
    simp [recvLoop, h]
  · intro env h1 h2
    simp only [send_rpc, h1, h2, Bool.false_eq_true, if_false]
    split
    · rfl
    · cases hd : env.decodeFn (recvLoop env.recvEvents []) <;> simp [isOkB, hd]

/-- Witness for C6 at concrete event sequences and a concrete exchange. -/
theorem recv_loop_three_outcomes_witness :
    recvLoop [RecvEvent.tout] [42] = [42] ∧
    recvLoop [RecvEvent.chunk [65, 10]] [] = [65] ∧
    isOkB (send_rpc ⟨false, false, [], fun _ => Option.none⟩) = true := by
  refine ⟨(recv_loop_three_outcomes [] [42]).1, ?_, ?_⟩
  · have h := (recv_loop_three_outcomes [] []).2.2.1 65 [10] (by decide)
    exact h.trans (by rfl)
  · exact (recv_loop_three_outcomes [] []).2.2.2.2
      ⟨false, false, [], fun _ => Option.none⟩ rfl rfl

/-- Claim C7: with activation enabled the target is list_id when that is a
non-empty string, else create_id; a non-empty target is activated with the
request of id 3 carrying params window_id under label ActivateWindow, and
an empty target produces the skip report instead. -/
theorem activate_target_selection :
    ∀ (l c : String),
    activateStep true (.str l) (.str c) =
      (if l = "" then
        (if c = "" then [DriverAct.skipReport]
         else [DriverAct.call "ActivateWindow"
           (.dict [("jsonrpc", .str "2.0"), ("id", .int 3),
             ("method", .str "ActivateWindow"),
             ("params", .dict [("window_id", .str c)])])])
       else [DriverAct.call "ActivateWindow"
         (.dict [("jsonrpc", .str "2.0"), ("id", .int 3),
           ("method", .str "ActivateWindow"),
           ("params", .dict [("window_id", .str l)])])]) := by
  intro l c
  by_cases hl : l = "" <;> by_cases hc : c = "" <;>
    simp [activateStep, pyOr, truthy, activatePayload, hl, hc]

/-- Claim C8 counterexample: a run aborted by a write timeout, an exception
that is not a ConnectionError, refuting that only connection failures and
interruption ever abort the benchmark sequence. -/
theorem non_conn_abort_cex :
    runIteration true true tEnv tEnv tEnv = .error .timeoutErr ∧
    errIsConn .timeoutErr = false := ⟨rfl, rfl⟩

/-- Claim C8 amended: a connect failure raises ConnectionError, uncaught by
send_rpc, and aborts the iteration with that error; but it is not the only
such abort, since a write timeout also aborts the iteration. -/
theorem conn_error_propagation_and_other_aborts :
    ∀ (dc da : Bool) (e1 e2 e3 : SockEnv),
    (e1.connectFails = true →
      send_rpc e1 = .error .connError ∧
      runIteration dc da e1 e2 e3 = .error .connError) ∧
    (e1.connectFails = false → e1.sendTimesOut = true →
      runIteration dc da e1 e2 e3 = .error .timeoutErr) := by
  intro dc da e1 e2 e3
  constructor
  · intro h
    have hs : send_rpc e1 = .error .connError := by simp [send_rpc, h]
    exact ⟨hs, by simp [runIteration, hs]⟩
  · intro h1 h2
    have hs : send_rpc e1 = .error .timeoutErr := by simp [send_rpc, h1, h2]
    simp [runIteration, hs]

/-- Witness for the amended C8 at concrete exchanges. -/
theorem conn_error_propagation_witness :
    (send_rpc cEnv = .error .connError ∧
     runIteration false false cEnv cEnv cEnv = .error .connError) ∧
    runIteration false false tEnv tEnv tEnv = .error .timeoutErr :=
  ⟨(conn_error_propagation_and_other_aborts false false cEnv cEnv cEnv).1 rfl,
   (conn_error_propagation_and_other_aborts false false tEnv tEnv tEnv).2 rfl rfl⟩

/-- Claim C9: the three documented response shapes resolve to W1, W9 and
W3 respectively, for any response mapping whose result field holds the
given value. -/
theorem extract_identifier_examples :
    ∀ (es1 es2 es3 : List (String × Py)),
    (dictGet es1 "result" = .list [.str "W1", .str "W2"] →
      first_window_id (.dict es1) = .ok (.str "W1")) ∧
    (dictGet es2 "result" = .list [.dict [("id", .str "W9")]] →
      first_window_id (.dict es2) = .ok (.str "W9")) ∧
    (dictGet es3 "result" = .dict [("windows", .list [.dict [("windowId", .str "W3")]])] →
      first_window_id (.dict es3) = .ok (.str "W3")) := by
  intro es1 es2 es3
  refine ⟨fun h => ?_, fun h => ?_, fun h => ?_⟩ <;>
    (simp only [first_window_id]; rw [h]; rfl)

/-- Witness for C9 at the three concrete responses. -/
theorem extract_identifier_examples_witness :
    first_window_id (.dict [("result", .list [.str "W1", .str "W2"])]) =
      .ok (.str "W1") ∧
    first_window_id (.dict [("result", .list [.dict [("id", .str "W9")]])]) =
      .ok (.str "W9") ∧
    first_window_id
      (.dict [("result", .dict [("windows", .list [.dict [("windowId", .str "W3")]])])]) =
      .ok (.str "W3") := by
  have h := extract_identifier_examples
    [("result", .list [.str "W1", .str "W2"])]
    [("result", .list [.dict [("id", .str "W9")]])]
    [("result", .dict [("windows", .list [.dict [("windowId", .str "W3")]])])]
  exact ⟨h.1 rfl, h.2.1 rfl, h.2.2 rfl⟩

/-- Claim C10: when the result mapping has a windows field holding a
non-empty sequence whose first element is neither a string nor a mapping,
first_window_id falls through to the key lookup on the result mapping
itself, returning its first truthy value among window_id, id, windowId. -/
theorem windows_nonmapping_fallthrough :
    ∀ (es : List (String × Py)) (w : Py) (ws : List Py) (respEs : List (String × Py)),
    dictGet respEs "result" = .dict es →
    dictGet es "windows" = .list (w :: ws) →
    isStr w = false → isDict w = false →
    first_window_id (.dict respEs) = .ok
      (if truthy (dictGet es "window_id") then dictGet es "window_id"
       else if truthy (dictGet es "id") then dictGet es "id"
       else if truthy (dictGet es "windowId") then dictGet es "windowId"
       else .str "") := by
  intro es w ws respEs h1 h2 hs hd
  have hb : fwid_body (.dict es) = getOr3 es := by
    simp only [fwid_body]
    rw [h2]
    cases w with
    | str s => simp [isStr] at hs
    | dict d => simp [isDict] at hd
    | none => rfl
    | bool b => rfl
    | int n => rfl
    | list xs => rfl
  simp only [first_window_id]
  rw [h1, hb]
  simp [getOr3, pyOr]

/-- Witness for C10 at the concrete example of the claim. -/
theorem windows_nonmapping_fallthrough_witness :
    first_window_id
      (.dict [("result", .dict [("windows", .list [.int 42]), ("id", .str "X")])]) =
      .ok (.str "X") := by
  have h := windows_nonmapping_fallthrough
    [("windows", .list [.int 42]), ("id", .str "X")] (.int 42) []
    [("result", .dict [("windows", .list [.int 42]), ("id", .str "X")])]
    rfl rfl rfl rfl
  exact h.trans (by rfl)
